import Mathlib

/-
Verification of the decision-validation pipeline (snapshot builder, hard
decision firewall, trade state machine, proposal parser) of the
ai_qt_stock repository, as a shallow embedding in Lean 4.

Modelling conventions:
* Python `float` values are embedded as rationals (`ℚ`); the program only
  compares and does ring arithmetic on them, so exact arithmetic is the
  intended semantics.
* Python `int` is embedded as `Int`.
* Python `None`-able values are `Option _`; `dict.get(k, d)` is `Option.getD`.
* Python truthiness is modelled explicitly where the source relies on it:
  a float is truthy iff nonzero, a string iff nonempty, a list/dict iff
  nonempty, `None` is falsy.
* `datetime` values are embedded as rational "minutes" on a global time
  line; `datetime.now()` becomes an explicit `now : ℚ` argument, and
  `timedelta(minutes = m)` is just `m`.
* Python strings used as enums ("BUY", "regular", ...) stay `String`.
-/

namespace AiQtStock

/-- Python truthiness of an optional float: `None` and `0.0` are falsy. -/
def truthyQ : Option ℚ → Bool
  | none => false
  | some x => decide (x ≠ 0)

/-- Python truthiness of an optional string: `None` and `""` are falsy. -/
def truthyS : Option String → Bool
  | none => false
  | some s => decide (s ≠ "")

/-- Python truthiness of an optional bool (a `dict.get` with no default). -/
def truthyB : Option Bool → Bool
  | none => false
  | some b => b

/-- Set a key in an insertion-ordered string-keyed dictionary
(`d[k] = v` in Python): replace in place when present, append otherwise. -/
def dictSet {α : Type} (d : List (String × α)) (k : String) (v : α) :
    List (String × α) :=
  if (d.lookup k).isSome then
    d.map (fun p => if p.1 = k then (k, v) else p)
  else d ++ [(k, v)]

/-! ## Reason codes (`hard_decision_firewall.ReasonCode`) -/

namespace ReasonCode

def ALLOWED : String := "ALLOWED"
def INVALID_SESSION : String := "INVALID_SESSION"
def LOW_LIQUIDITY : String := "LOW_LIQUIDITY"
def HIGH_SPREAD : String := "HIGH_SPREAD"
def INSUFFICIENT_BUY_SIGNALS : String := "INSUFFICIENT_BUY_SIGNALS"
def POSITION_SIZE_EXCEEDED : String := "POSITION_SIZE_EXCEEDED"
def PARAMS_CLAMPED : String := "PARAMS_CLAMPED"
def DAY_CIRCUIT_BREAKER : String := "DAY_CIRCUIT_BREAKER"
def COOLDOWN_ACTIVE : String := "COOLDOWN_ACTIVE"
def MIN_TRADE_INTERVAL : String := "MIN_TRADE_INTERVAL"
def MISSING_DATA : String := "MISSING_DATA"
def LOW_CONFIDENCE : String := "LOW_CONFIDENCE"
def SIGNAL_CONFLICT : String := "SIGNAL_CONFLICT"
def HARD_STOP_LOSS : String := "HARD_STOP_LOSS"

end ReasonCode

/-! ## Data model -/

/-- The keys of a proposal's `params` dict that the firewall reads or
writes; `none` models an absent key. -/
structure ParamsDict where
  position_size_pct : Option ℚ := none
  stop_loss_pct : Option ℚ := none
  take_profit_pct : Option ℚ := none
  deriving DecidableEq

/-- The keys of a proposal's `evidence` dict read by
`HardDecisionFirewall._has_signal_conflict`. -/
structure EvidenceDict where
  trend_ok : Option Bool := none
  macd_ok : Option Bool := none
  volume_ok : Option Bool := none
  deriving DecidableEq

/-- `hard_decision_firewall.LLMProposal`. -/
structure LLMProposal where
  symbol : String
  proposed_action : String
  confidence : Int
  evidence : EvidenceDict
  params : ParamsDict
  risk_level : String
  warnings : List String
  counter_evidence : List String
  notes : String
  deriving DecidableEq

/-- One element of the `positions` list fed to
`IndicatorSnapshot.from_market_data`; fields are read with `.get`. -/
structure PositionRec where
  symbol : Option String := none
  avg_entry_price : Option ℚ := none
  quantity : Option Int := none
  current_price : Option ℚ := none
  deriving DecidableEq

/-- `indicator_snapshot.IndicatorSnapshot` (the fields; `open` is renamed
`open_price` because `open` is a Lean keyword). Timestamps are rational
minutes. -/
structure IndicatorSnapshot where
  symbol : String
  timestamp_utc : ℚ
  timestamp_et : ℚ
  price : ℚ
  open_price : ℚ
  high : ℚ
  low : ℚ
  close : ℚ
  volume : Int
  ma5 : Option ℚ := none
  ma20 : Option ℚ := none
  ma60 : Option ℚ := none
  macd : Option ℚ := none
  macd_dif : Option ℚ := none
  macd_dea : Option ℚ := none
  macd_hist : Option ℚ := none
  macd_cross : Option String := none
  rsi : Option ℚ := none
  bb_upper : Option ℚ := none
  bb_middle : Option ℚ := none
  bb_lower : Option ℚ := none
  bb_position : Option String := none
  avg_volume_5d : Option ℚ := none
  volume_ratio : Option ℚ := none
  spread : Option ℚ := none
  liquidity_score : Option ℚ := none
  session : String := "regular"
  support : Option ℚ := none
  resistance : Option ℚ := none
  account_equity : ℚ := 0
  account_buying_power : ℚ := 0
  positions : List (String × PositionRec) := []
  has_position : Bool := false
  position_cost : ℚ := 0
  position_quantity : Int := 0
  position_pnl_pct : ℚ := 0
  day_pnl_pct : ℚ := 0
  consecutive_losses : Int := 0
  last_trade_time_by_symbol : List (String × ℚ) := []
  trend_ok : Bool := false
  volume_ok : Bool := false
  macd_ok : Bool := false
  rsi_ok : Bool := false
  breakout_ok : Bool := false
  bb_ok : Bool := false
  buy_rule_count : Int := 0
  has_valid_price : Bool := true
  has_valid_indicators : Bool := true
  missing_fields : List String := []
  deriving DecidableEq

/-- `hard_decision_firewall.FirewallResult`; `modifications` defaults to
`None` in the dataclass, so it is an `Option`. -/
structure FirewallResult where
  allowed : Bool
  final_action : String
  final_params : ParamsDict
  reject_reasons : List String
  reason_codes : List String
  normalized_confidence : Int
  original_proposal : LLMProposal
  modifications : Option (List String) := none
  deriving DecidableEq

/-- The configuration fields read in `HardDecisionFirewall.__init__`,
with the source's default values. -/
structure FirewallConfig where
  enable_extended_hours : Bool := false
  max_spread : ℚ := 1/2
  min_liquidity_score : ℚ := 50
  min_buy_rule_count : Int := 3
  max_position_size_pct : ℚ := 40
  max_position_size_pct_extended : ℚ := 20
  min_confidence_buy : Int := 65
  stop_loss_min : ℚ := 3
  stop_loss_max : ℚ := 5
  take_profit_min : ℚ := 5
  take_profit_max : ℚ := 15
  day_circuit_breaker_pct : ℚ := -2
  cooldown_minutes : ℚ := 30
  min_trade_interval_minutes : ℚ := 5
  hard_stop_loss_pct : ℚ := -5
  deriving DecidableEq

/-! ## The firewall (`hard_decision_firewall.HardDecisionFirewall`) -/

/-- `HardDecisionFirewall._has_signal_conflict`. -/
def hasSignalConflict (snapshot : IndicatorSnapshot)
    (proposal : LLMProposal) : Bool :=
  if snapshot.trend_ok ∧ ¬ snapshot.macd_ok ∧ ¬ snapshot.volume_ok then
    true
  else
    let evidence := proposal.evidence
    if truthyB evidence.trend_ok ∧ ¬ truthyB evidence.macd_ok ∧
        ¬ truthyB evidence.volume_ok then
      true
    else false

/-- The mutable locals of `HardDecisionFirewall.check`, threaded through
the sequential checks. -/
structure CheckState where
  reject_reasons : List String
  reason_codes : List String
  modifications : List String
  final_action : String
  final_params : ParamsDict
  normalized_confidence : Int
  deriving DecidableEq

/-- Section 1 of `check`, second half: missing-field handling for BUY
proposals (the invalid-price early return is in `check` itself). -/
def checkMissingFields (proposal : LLMProposal) (snapshot : IndicatorSnapshot)
    (st : CheckState) : CheckState :=
  if snapshot.missing_fields ≠ [] ∧ proposal.proposed_action = "BUY" then
    { st with
      reject_reasons := st.reject_reasons ++ ["Critical indicators missing"],
      reason_codes := st.reason_codes ++ [ReasonCode.MISSING_DATA],
      final_action := "HOLD",
      normalized_confidence := max 0 (st.normalized_confidence - 20) }
  else st

/-- Section 3 of `check`: trading session check. -/
def checkSession (fw : FirewallConfig) (proposal : LLMProposal)
    (snapshot : IndicatorSnapshot) (st : CheckState) : CheckState :=
  if snapshot.session = "closed" then
    { st with
      reject_reasons := st.reject_reasons ++ ["Market is closed"],
      reason_codes := st.reason_codes ++ [ReasonCode.INVALID_SESSION],
      final_action := "HOLD" }
  else if snapshot.session ≠ "regular" then
    if fw.enable_extended_hours = false then
      { st with
        reject_reasons := st.reject_reasons ++
          ["Non-regular trading session, extended hours trading not enabled"],
        reason_codes := st.reason_codes ++ [ReasonCode.INVALID_SESSION],
        final_action := "HOLD" }
    else if proposal.proposed_action = "BUY" then
      let st1 :=
        if st.final_params.position_size_pct.getD 0 >
            fw.max_position_size_pct_extended then
          { st with
            final_params := { st.final_params with
              position_size_pct := some fw.max_position_size_pct_extended },
            modifications := st.modifications ++
              ["Extended hours trading, position limit reduced"] }
        else st
      let st2 :=
        if proposal.risk_level ≠ "high" then
          { st1 with modifications := st1.modifications ++
              ["Extended hours trading, risk level raised to high"] }
        else st1
      { st2 with
        normalized_confidence := max 0 (st2.normalized_confidence - 10) }
    else st
  else st

/-- Section 4 of `check`, first half: spread check. -/
def checkSpread (fw : FirewallConfig) (proposal : LLMProposal)
    (snapshot : IndicatorSnapshot) (st : CheckState) : CheckState :=
  match snapshot.spread with
  | some sp =>
    if sp > fw.max_spread then
      let st1 :=
        { st with
          reject_reasons := st.reject_reasons ++ ["Spread too large"],
          reason_codes := st.reason_codes ++ [ReasonCode.HIGH_SPREAD] }
      if proposal.proposed_action = "BUY" then
        { st1 with final_action := "HOLD" }
      else st1
    else st
  | none => st

/-- Section 4 of `check`, second half: liquidity-score check. -/
def checkLiquidity (fw : FirewallConfig) (proposal : LLMProposal)
    (snapshot : IndicatorSnapshot) (st : CheckState) : CheckState :=
  match snapshot.liquidity_score with
  | some ls =>
    if ls < fw.min_liquidity_score then
      let st1 :=
        { st with
          reject_reasons := st.reject_reasons ++ ["Insufficient liquidity"],
          reason_codes := st.reason_codes ++ [ReasonCode.LOW_LIQUIDITY] }
      if proposal.proposed_action = "BUY" then
        { st1 with final_action := "HOLD" }
      else st1
    else st
  | none => st

/-- Section 5 of `check`: buy-signal checks (BUY proposals only). -/
def checkBuySignals (fw : FirewallConfig) (proposal : LLMProposal)
    (snapshot : IndicatorSnapshot) (st : CheckState) : CheckState :=
  if proposal.proposed_action = "BUY" then
    let st1 :=
      if snapshot.buy_rule_count < fw.min_buy_rule_count then
        { st with
          reject_reasons := st.reject_reasons ++ ["Insufficient buy signals"],
          reason_codes := st.reason_codes ++
            [ReasonCode.INSUFFICIENT_BUY_SIGNALS],
          final_action := "HOLD",
          normalized_confidence := max 0 (st.normalized_confidence - 30) }
      else st
    let st2 :=
      if proposal.confidence < fw.min_confidence_buy then
        { st1 with
          reject_reasons := st1.reject_reasons ++ ["Insufficient confidence"],
          reason_codes := st1.reason_codes ++ [ReasonCode.LOW_CONFIDENCE],
          final_action := "HOLD" }
      else st1
    let st3 :=
      if hasSignalConflict snapshot proposal = true then
        { st2 with
          reject_reasons := st2.reject_reasons ++
            ["Signal conflict: Uptrend but technical indicators inconsistent"],
          reason_codes := st2.reason_codes ++ [ReasonCode.SIGNAL_CONFLICT],
          final_action := "HOLD",
          normalized_confidence := max 0 (st2.normalized_confidence - 20) }
      else st2
    if proposal.counter_evidence.length < 2 then
      { st3 with
        modifications := st3.modifications ++
          ["LLM did not provide sufficient counter-evidence, reducing confidence"],
        normalized_confidence := max 0 (st3.normalized_confidence - 10) }
    else st3
  else st

/-- Section 6 of `check`: position-size limit (BUY proposals only). -/
def checkPositionLimit (fw : FirewallConfig) (proposal : LLMProposal)
    (snapshot : IndicatorSnapshot) (st : CheckState) : CheckState :=
  if proposal.proposed_action = "BUY" then
    let max_size :=
      if snapshot.session ≠ "regular" then fw.max_position_size_pct_extended
      else fw.max_position_size_pct
    if st.final_params.position_size_pct.getD 0 > max_size then
      { st with
        final_params := { st.final_params with
          position_size_pct := some max_size },
        modifications := st.modifications ++ ["Position limit clamped"],
        reason_codes := st.reason_codes ++ [ReasonCode.PARAMS_CLAMPED] }
    else st
  else st

/-- Section 7 of `check`: stop-loss / take-profit range clamps. -/
def checkClamps (fw : FirewallConfig) (st : CheckState) : CheckState :=
  let stop_loss_pct := st.final_params.stop_loss_pct.getD 5
  let take_profit_pct := st.final_params.take_profit_pct.getD 10
  let st1 :=
    if stop_loss_pct < fw.stop_loss_min ∨ stop_loss_pct > fw.stop_loss_max then
      { st with
        final_params := { st.final_params with
          stop_loss_pct :=
            some (max fw.stop_loss_min (min fw.stop_loss_max stop_loss_pct)) },
        modifications := st.modifications ++ ["Stop loss clamped"],
        reason_codes := st.reason_codes ++ [ReasonCode.PARAMS_CLAMPED] }
    else st
  if take_profit_pct < fw.take_profit_min ∨
      take_profit_pct > fw.take_profit_max then
    { st1 with
      final_params := { st1.final_params with
        take_profit_pct :=
          some (max fw.take_profit_min
            (min fw.take_profit_max take_profit_pct)) },
      modifications := st1.modifications ++ ["Take profit clamped"],
      reason_codes := st1.reason_codes ++ [ReasonCode.PARAMS_CLAMPED] }
  else st1

/-- Section 8 of `check`: daily circuit breaker (BUY proposals only). -/
def checkCircuitBreaker (fw : FirewallConfig) (proposal : LLMProposal)
    (snapshot : IndicatorSnapshot) (st : CheckState) : CheckState :=
  if proposal.proposed_action = "BUY" ∧
      snapshot.day_pnl_pct ≤ fw.day_circuit_breaker_pct then
    { st with
      reject_reasons := st.reject_reasons ++
        ["Daily circuit breaker triggered"],
      reason_codes := st.reason_codes ++ [ReasonCode.DAY_CIRCUIT_BREAKER],
      final_action := "HOLD" }
  else st

/-- Section 9 of `check`: cooldown and minimum-trade-interval checks.
`datetime` dictionary values are always truthy when present, so the
source's `if last_trade_time:` is the `some` branch of the lookup. -/
def checkCooldown (fw : FirewallConfig) (now : ℚ) (proposal : LLMProposal)
    (snapshot : IndicatorSnapshot) (st : CheckState) : CheckState :=
  if snapshot.last_trade_time_by_symbol ≠ [] then
    match snapshot.last_trade_time_by_symbol.lookup snapshot.symbol with
    | some last_trade_time =>
      let time_since_last_trade := now - last_trade_time
      let st1 :=
        if proposal.proposed_action = "BUY" ∧
            time_since_last_trade < fw.cooldown_minutes then
          { st with
            reject_reasons := st.reject_reasons ++
              ["Cooldown period not ended"],
            reason_codes := st.reason_codes ++
              [ReasonCode.COOLDOWN_ACTIVE],
            final_action := "HOLD" }
        else st
      if time_since_last_trade < fw.min_trade_interval_minutes then
        let st2 :=
          { st1 with
            reject_reasons := st1.reject_reasons ++
              ["Insufficient trade interval"],
            reason_codes := st1.reason_codes ++
              [ReasonCode.MIN_TRADE_INTERVAL] }
        if proposal.proposed_action ≠ "SELL" then
          { st2 with final_action := "HOLD" }
        else st2
      else st1
    | none => st
  else st

/-- Sections 3-9 of `check`, composed in source order. -/
def checkMain (fw : FirewallConfig) (now : ℚ) (proposal : LLMProposal)
    (snapshot : IndicatorSnapshot) (st : CheckState) : CheckState :=
  checkCooldown fw now proposal snapshot
    (checkCircuitBreaker fw proposal snapshot
      (checkClamps fw
        (checkPositionLimit fw proposal snapshot
          (checkBuySignals fw proposal snapshot
            (checkLiquidity fw proposal snapshot
              (checkSpread fw proposal snapshot
                (checkSession fw proposal snapshot st)))))))

/-- Section 10 of `check`: final decision. -/
def finalDecision (proposal : LLMProposal) (st : CheckState) :
    FirewallResult :=
  let allowed : Bool :=
    decide ((st.final_action = "BUY" ∨ st.final_action = "SELL") ∧
      st.reject_reasons.length = 0)
  let final_action := if allowed = false then "HOLD" else st.final_action
  { allowed := allowed, final_action := final_action,
    final_params := st.final_params,
    reject_reasons := st.reject_reasons,
    reason_codes := st.reason_codes,
    normalized_confidence := st.normalized_confidence,
    original_proposal := proposal,
    modifications := some st.modifications }

/-- `HardDecisionFirewall.check`. The interpolated numeric parts of the
human-readable reason strings are omitted (only the fixed message text is
kept); everything else follows the source section by section via the
helper functions above. `now` is the value of `datetime.now()` used by
the cooldown check, in minutes. The source also binds an unused local
from `risk_state` — see `checkWithEnv` below for the mutation model. -/
def check (fw : FirewallConfig) (now : ℚ) (proposal : LLMProposal)
    (snapshot : IndicatorSnapshot) : FirewallResult :=
  let st : CheckState :=
    { reject_reasons := [], reason_codes := [], modifications := [],
      final_action := proposal.proposed_action,
      final_params := proposal.params,
      normalized_confidence := proposal.confidence }
  -- 1. Data integrity check: invalid price returns immediately
  if snapshot.has_valid_price = false then
    { allowed := false, final_action := "HOLD", final_params := {},
      reject_reasons := st.reject_reasons ++ ["Invalid price data"],
      reason_codes := st.reason_codes ++ [ReasonCode.MISSING_DATA],
      normalized_confidence := 0, original_proposal := proposal,
      modifications := none }
  else
    let st := checkMissingFields proposal snapshot st
    -- 2. Hard stop loss check (highest priority): returns immediately
    if snapshot.has_position = true ∧
        snapshot.position_pnl_pct ≤ fw.hard_stop_loss_pct then
      { allowed := true, final_action := "SELL",
        final_params :=
          { position_size_pct := some 100,
            stop_loss_pct := some fw.hard_stop_loss_pct,
            take_profit_pct := some 0 },
        reject_reasons := [],
        reason_codes := [ReasonCode.HARD_STOP_LOSS],
        normalized_confidence := 100, original_proposal := proposal,
        modifications := some ["Hard stop loss triggered, forced sell"] }
    else
      finalDecision proposal (checkMain fw now proposal snapshot st)

/-- The mutation model of `HardDecisionFirewall.check`: the source copies
`proposal.params` before editing (`final_params = proposal.params.copy()`),
binds `risk_state or {}` to a local, and every later assignment targets a
local variable or the copy, so the call leaves the proposal, the snapshot
and the risk context exactly as they were. This wrapper makes those
post-call values explicit alongside the result. `riskState` is the
optional `risk_state` argument (a dict the body never reads). -/
def checkWithEnv (fw : FirewallConfig) (now : ℚ) (proposal : LLMProposal)
    (snapshot : IndicatorSnapshot) (riskState : Option (List (String × ℚ))) :
    FirewallResult × LLMProposal × IndicatorSnapshot ×
      Option (List (String × ℚ)) :=
  (check fw now proposal snapshot, proposal, snapshot, riskState)

/-! ## The snapshot builder (`IndicatorSnapshot.from_market_data`) -/

/-- The keys of the `market_data` dict read by `from_market_data`;
`none` models an absent key. -/
structure MarketData where
  current_price : Option ℚ := none
  open_price : Option ℚ := none
  high : Option ℚ := none
  low : Option ℚ := none
  close : Option ℚ := none
  volume : Option Int := none
  ma5 : Option ℚ := none
  ma20 : Option ℚ := none
  ma60 : Option ℚ := none
  macd : Option ℚ := none
  macd_signal : Option ℚ := none
  macd_hist : Option ℚ := none
  rsi : Option ℚ := none
  bb_upper : Option ℚ := none
  bb_middle : Option ℚ := none
  bb_lower : Option ℚ := none
  volume_ratio : Option ℚ := none
  spread : Option ℚ := none
  liquidity_score : Option ℚ := none
  deriving DecidableEq

/-- The keys of the `account_info` dict read by `from_market_data`. -/
structure AccountInfo where
  equity : Option ℚ := none
  portfolio_value : Option ℚ := none
  buying_power : Option ℚ := none
  cash : Option ℚ := none
  deriving DecidableEq

/-- The keys of the `risk_state` dict read by `from_market_data`. -/
structure RiskState where
  day_pnl_pct : Option ℚ := none
  consecutive_losses : Option Int := none
  last_trade_time_by_symbol : Option (List (String × ℚ)) := none
  deriving DecidableEq

/-- The trading-session derivation of `from_market_data`
(`time_minutes = hour_et * 60 + minute_et` of the exchange-local clock).
The numeric bounds are the source's; its comments claim 4:30 AM for 570
and 9:30 AM-4:00 PM for 930..960, but 570 minutes is 9:30 and 930 is
15:30. -/
def sessionOfMinutes (time_minutes : Int) : String :=
  if 570 ≤ time_minutes ∧ time_minutes < 930 then "premarket"
  else if 930 ≤ time_minutes ∧ time_minutes < 960 then "regular"
  else if 960 ≤ time_minutes ∧ time_minutes < 1200 then "afterhours"
  else "closed"

/-- The accumulator of the positions loop in `from_market_data`. -/
structure PositionsAcc where
  positions_dict : List (String × PositionRec)
  has_position : Bool
  position_cost : ℚ
  position_quantity : Int
  position_pnl_pct : ℚ

/-- One iteration of the positions loop in `from_market_data`. -/
def positionsStep (symbol : String) (price : ℚ) (acc : PositionsAcc)
    (pos : PositionRec) : PositionsAcc :=
  let pos_symbol := (pos.symbol.getD "").toUpper
  let acc := { acc with
    positions_dict := dictSet acc.positions_dict pos_symbol pos }
  if pos_symbol = symbol.toUpper then
    let position_cost := pos.avg_entry_price.getD 0
    let position_quantity := pos.quantity.getD 0
    let current_price := pos.current_price.getD price
    let position_pnl_pct :=
      if position_cost > 0 then
        ((current_price - position_cost) / position_cost) * 100
      else acc.position_pnl_pct
    { acc with
      has_position := true, position_cost := position_cost,
      position_quantity := position_quantity,
      position_pnl_pct := position_pnl_pct }
  else acc

/-- `IndicatorSnapshot.from_market_data`. The system clock is passed in
explicitly: `now_utc`/`now_et` as rational minutes and `time_minutes` as
the exchange-local minutes past midnight derived from `now_et`. Python
truthiness (`if x and y:` over floats/strings) is spelled out. -/
def from_market_data (symbol : String) (market_data : MarketData)
    (account_info : AccountInfo) (positions : List PositionRec)
    (risk_state : Option RiskState) (now_utc now_et : ℚ)
    (time_minutes : Int) : IndicatorSnapshot :=
  let session := sessionOfMinutes time_minutes
  let price := market_data.current_price.getD 0
  let open_price := market_data.open_price.getD price
  let high := market_data.high.getD price
  let low := market_data.low.getD price
  let close := market_data.close.getD price
  let volume := market_data.volume.getD 0
  let ma5 := market_data.ma5
  let ma20 := market_data.ma20
  let ma60 := market_data.ma60
  let macd := market_data.macd
  let macd_signal := market_data.macd_signal
  let macd_hist := market_data.macd_hist
  let macd_cross : String :=
    match macd, macd_signal, macd_hist with
    | some m, some s, some h =>
      if h > 0 ∧ m > s then "golden"
      else if h < 0 ∧ m < s then "death"
      else "none"
    | _, _, _ => "none"
  let rsi := market_data.rsi
  let bb_upper := market_data.bb_upper
  let bb_middle := market_data.bb_middle
  let bb_lower := market_data.bb_lower
  let bb_position : Option String :=
    match bb_upper, bb_middle, bb_lower with
    | some bu, some bm, some bl =>
      if bu ≠ 0 ∧ bm ≠ 0 ∧ bl ≠ 0 ∧ price ≠ 0 then
        some (if price ≥ bu * (98/100) then "upper"
          else if price ≥ bm then "middle"
          else "lower")
      else none
    | _, _, _ => none
  let volume_ratio := market_data.volume_ratio
  let avg_volume_5d : Option ℚ :=
    match volume_ratio with
    | some vr => if vr ≠ 0 ∧ volume ≠ 0 then some (volume / vr) else none
    | none => none
  let support : Option ℚ := if low ≠ 0 then some (low * (98/100)) else none
  let resistance : Option ℚ :=
    if high ≠ 0 then some (high * (102/100)) else none
  let acc0 : PositionsAcc :=
    { positions_dict := [], has_position := false, position_cost := 0,
      position_quantity := 0, position_pnl_pct := 0 }
  let acc := positions.foldl (positionsStep symbol price) acc0
  let account_equity :=
    account_info.equity.getD (account_info.portfolio_value.getD 0)
  let account_buying_power :=
    account_info.buying_power.getD (account_info.cash.getD 0)
  let rs := risk_state.getD {}
  let day_pnl_pct := rs.day_pnl_pct.getD 0
  let consecutive_losses := rs.consecutive_losses.getD 0
  let last_trade_time_by_symbol := rs.last_trade_time_by_symbol.getD []
  let trend_ok : Bool :=
    match ma5, ma20, ma60 with
    | some m5, some m20, some m60 =>
      decide (m5 ≠ 0 ∧ m20 ≠ 0 ∧ m60 ≠ 0 ∧ price ≠ 0 ∧
        price > m5 ∧ m5 > m20 ∧ m20 > m60)
    | _, _, _ => false
  let volume_ok : Bool :=
    match volume_ratio with
    | some vr => decide (vr ≠ 0 ∧ vr > 12/10)
    | none => false
  let macd_ok : Bool :=
    match macd, macd_signal with
    | some m, some s => decide (m > 0 ∧ m > s ∧ macd_cross = "golden")
    | _, _ => false
  let rsi_ok : Bool :=
    match rsi with
    | some r => decide (r ≠ 0 ∧ 50 ≤ r ∧ r ≤ 70)
    | none => false
  let breakout_ok : Bool :=
    match resistance with
    | some res => decide (res ≠ 0 ∧ price ≠ 0 ∧ price ≥ res * (99/100))
    | none => false
  let bb_ok : Bool :=
    match bb_position, bb_middle with
    | some bp, some bm =>
      decide (bp ≠ "" ∧ bm ≠ 0 ∧ price ≠ 0 ∧
        (bp = "middle" ∨ bp = "upper") ∧ price ≥ bm)
    | _, _ => false
  let buy_rule_count : Int :=
    [trend_ok, volume_ok, macd_ok, rsi_ok, breakout_ok, bb_ok].foldl
      (fun n b => n + if b then 1 else 0) 0
  let has_valid_price : Bool := decide (price > 0)
  let missing_fields : List String :=
    (if has_valid_price = false then ["price"] else []) ++
    (if ma5 = none then ["ma5"] else []) ++
    (if ma20 = none then ["ma20"] else []) ++
    (if ma60 = none then ["ma60"] else []) ++
    (if macd = none then ["macd"] else []) ++
    (if rsi = none then ["rsi"] else [])
  let has_valid_indicators : Bool := has_valid_price
  let spread := market_data.spread.getD (1/10)
  let liquidity_score := market_data.liquidity_score.getD 80
  { symbol := symbol.toUpper,
    timestamp_utc := now_utc, timestamp_et := now_et,
    price := price, open_price := open_price, high := high, low := low,
    close := close, volume := volume,
    ma5 := ma5, ma20 := ma20, ma60 := ma60,
    macd := macd, macd_dif := macd, macd_dea := macd_signal,
    macd_hist := macd_hist, macd_cross := some macd_cross,
    rsi := rsi,
    bb_upper := bb_upper, bb_middle := bb_middle, bb_lower := bb_lower,
    bb_position := bb_position,
    avg_volume_5d := avg_volume_5d, volume_ratio := volume_ratio,
    spread := some spread, liquidity_score := some liquidity_score,
    session := session, support := support, resistance := resistance,
    account_equity := account_equity,
    account_buying_power := account_buying_power,
    positions := acc.positions_dict, has_position := acc.has_position,
    position_cost := acc.position_cost,
    position_quantity := acc.position_quantity,
    position_pnl_pct := acc.position_pnl_pct,
    day_pnl_pct := day_pnl_pct, consecutive_losses := consecutive_losses,
    last_trade_time_by_symbol := last_trade_time_by_symbol,
    trend_ok := trend_ok, volume_ok := volume_ok, macd_ok := macd_ok,
    rsi_ok := rsi_ok, breakout_ok := breakout_ok, bb_ok := bb_ok,
    buy_rule_count := buy_rule_count,
    has_valid_price := has_valid_price,
    has_valid_indicators := has_valid_indicators,
    missing_fields := missing_fields }

/-! ## The trade state machine (`trade_state_machine.py`) -/

/-- `trade_state_machine.TradeState`. -/
inductive TradeState
  | WAIT
  | CANDIDATE
  | ENTERED
  | MANAGING
  | EXITED
  | COOLDOWN
  deriving DecidableEq

/-- `trade_state_machine.SymbolState`. -/
structure SymbolState where
  symbol : String
  state : TradeState
  entered_at : Option ℚ := none
  exited_at : Option ℚ := none
  last_action : Option String := none
  last_action_time : Option ℚ := none
  consecutive_holds : Int := 0
  deriving DecidableEq

/-- `trade_state_machine.TradeStateMachine` (the mutable fields). -/
structure TradeStateMachine where
  cooldown_minutes : ℚ := 30
  states : List (String × SymbolState) := []
  deriving DecidableEq

/-- `TradeStateMachine.__init__`. -/
def TradeStateMachine.init (cooldown_minutes : ℚ) : TradeStateMachine :=
  { cooldown_minutes := cooldown_minutes, states := [] }

/-- `TradeStateMachine.get_state`. -/
def TradeStateMachine.get_state (m : TradeStateMachine) (symbol : String) :
    TradeState :=
  match m.states.lookup symbol with
  | none => TradeState.WAIT
  | some so => so.state

/-- `TradeStateMachine.can_open_position`. -/
def TradeStateMachine.can_open_position (m : TradeStateMachine)
    (symbol : String) : Bool :=
  let state := m.get_state symbol
  decide (state = TradeState.WAIT ∨ state = TradeState.CANDIDATE)

/-- `TradeStateMachine.can_close_position`. -/
def TradeStateMachine.can_close_position (m : TradeStateMachine)
    (symbol : String) : Bool :=
  let state := m.get_state symbol
  decide (state = TradeState.ENTERED ∨ state = TradeState.MANAGING)

/-- The state-transition core of `TradeStateMachine.transition`: the
update applied to one `SymbolState` (the source mutates `state_obj` in
place; `now` is `datetime.now()` in minutes). The source's SELL branch
assigns EXITED and then immediately COOLDOWN, so the stored result is
COOLDOWN. -/
def stepSymbolState (cooldown_minutes : ℚ) (now : ℚ) (action : String)
    (has_position : Bool) (so : SymbolState) : SymbolState :=
  let so :=
    if action = "BUY" then
      if so.state = TradeState.WAIT ∨ so.state = TradeState.CANDIDATE then
        if has_position then
          { so with state := TradeState.ENTERED, entered_at := some now }
        else
          { so with state := TradeState.CANDIDATE }
      else if so.state = TradeState.COOLDOWN then
        match so.exited_at with
        | some exited_at =>
          if now - exited_at ≥ cooldown_minutes then
            { so with state := TradeState.CANDIDATE }
          else so
        | none => so
      else so
    else if action = "SELL" then
      if so.state = TradeState.ENTERED ∨ so.state = TradeState.MANAGING then
        { so with state := TradeState.COOLDOWN, exited_at := some now }
      else so
    else if action = "HOLD" then
      if so.state = TradeState.ENTERED then
        { so with state := TradeState.MANAGING }
      else if so.state = TradeState.CANDIDATE then
        let so := { so with consecutive_holds := so.consecutive_holds + 1 }
        if so.consecutive_holds ≥ 3 then
          { so with state := TradeState.WAIT, consecutive_holds := 0 }
        else so
      else if so.state = TradeState.COOLDOWN then
        match so.exited_at with
        | some exited_at =>
          if now - exited_at ≥ cooldown_minutes then
            { so with state := TradeState.WAIT }
          else so
        | none => so
      else
        { so with consecutive_holds := so.consecutive_holds + 1 }
    else so
  { so with last_action := some action, last_action_time := some now }

/-- `TradeStateMachine.transition`: lazily creates the symbol entry, steps
it, and returns the new state together with the updated machine. -/
def TradeStateMachine.transition (m : TradeStateMachine) (symbol : String)
    (action : String) (has_position : Bool) (now : ℚ) :
    TradeState × TradeStateMachine :=
  let fresh : SymbolState := { symbol := symbol, state := TradeState.WAIT }
  let states :=
    if (m.states.lookup symbol).isSome then m.states
    else m.states ++ [(symbol, fresh)]
  let so :=
    match states.lookup symbol with
    | some so => so
    | none => fresh
  let so := stepSymbolState m.cooldown_minutes now action has_position so
  (so.state, { m with states := dictSet states symbol so })

/-! ## The proposal parser (`AlpacaAIDecision._parse_proposal_v2`)

Python strings are embedded as `List Char`; `str.find`, `str.rfind`,
slicing (including a negative end index), `str.strip` and `str.lower`
are modelled below with Python semantics. -/

/-- Python `s.find(pat, start)`: least index `i ≥ start` (with `i ≤ len s`)
where `pat` occurs, else `-1`. -/
def pyFind (s pat : List Char) (start : Nat) : Int :=
  match (List.range (s.length + 1)).find?
      (fun i => decide (start ≤ i) && pat.isPrefixOf (s.drop i)) with
  | some i => Int.ofNat i
  | none => -1

/-- Python `pat in s`. -/
def pyContains (s pat : List Char) : Bool := decide (0 ≤ pyFind s pat 0)

/-- Python `s.rfind(pat)`: greatest index where `pat` occurs, else `-1`. -/
def pyRfind (s pat : List Char) : Int :=
  match ((List.range (s.length + 1)).filter
      (fun i => pat.isPrefixOf (s.drop i))).getLast? with
  | some i => Int.ofNat i
  | none => -1

/-- Python `s[a:b]` for `a ≥ 0`; a negative `b` counts from the end. -/
def pySlice (s : List Char) (a : Nat) (b : Int) : List Char :=
  let stop : Nat :=
    if b < 0 then (Int.ofNat s.length + b).toNat else min b.toNat s.length
  (s.take stop).drop a

/-- Python `s.strip()` (restricted to ASCII whitespace). -/
def pyStrip (s : List Char) : List Char :=
  ((s.dropWhile Char.isWhitespace).reverse.dropWhile Char.isWhitespace).reverse

/-- The JSON-extraction part of `_parse_proposal_v2`: three presentation
variants (` ```json ` fence, bare ` ``` ` fence, first/last-brace scan),
otherwise the raw response. The fenced searches run on `s.lower()` for
the tag and on the original text for the closing fence, exactly as in the
source; a missing closing fence makes `find` return `-1`, which Python
slicing treats as "up to the last character". -/
def extract_json_str (ai_response : List Char) : List Char :=
  let lowered := ai_response.map Char.toLower
  if pyContains lowered "```json".toList then
    let json_start := (pyFind lowered "```json".toList 0 + 7).toNat
    let json_end := pyFind ai_response "```".toList json_start
    pyStrip (pySlice ai_response json_start json_end)
  else if pyContains ai_response "```".toList then
    let first_tick := pyFind ai_response "```".toList 0
    let json_start :=
      (pyFind ai_response "\n".toList first_tick.toNat + 1).toNat
    let json_end := pyFind ai_response "```".toList json_start
    pyStrip (pySlice ai_response json_start json_end)
  else if pyContains ai_response "\x7b".toList ∧
      pyContains ai_response "\x7d".toList then
    let start_idx := (pyFind ai_response "\x7b".toList 0).toNat
    let end_idx := pyRfind ai_response "\x7d".toList + 1
    pySlice ai_response start_idx end_idx
  else ai_response

/-- The fields of the JSON object `_parse_proposal_v2` reads out of
`json.loads(json_str)`; `none` models an absent key. -/
structure PropData where
  symbol : Option String := none
  proposed_action : Option String := none
  confidence : Option Int := none
  evidence : Option EvidenceDict := none
  params : Option ParamsDict := none
  risk_level : Option String := none
  warnings : Option (List String) := none
  counter_evidence : Option (List String) := none
  notes : Option String := none
  deriving DecidableEq

/-- The `params` default used when the proposal JSON carries none. -/
def defaultParams : ParamsDict :=
  { position_size_pct := some 20, stop_loss_pct := some 5,
    take_profit_pct := some 10 }

/-- The conservative proposal returned by the `except` handler of
`_parse_proposal_v2` (the interpolated `str(e)` in the warning is
omitted). -/
def fallbackProposal (snapshot : IndicatorSnapshot) : LLMProposal :=
  { symbol := snapshot.symbol, proposed_action := "HOLD", confidence := 0,
    evidence := {}, params := {}, risk_level := "high",
    warnings := ["Parse failed"],
    counter_evidence :=
      ["Data parsing error", "Unable to generate valid decision"],
    notes := "LLM output parsing failed, using conservative strategy" }

/-- `AlpacaAIDecision._parse_proposal_v2`. `loads` abstracts the Python
standard-library step `json.loads` plus the `int(...)` conversion of the
confidence field: it returns `none` whenever that stdlib code raises, and
the present/absent JSON keys otherwise. Every failure mode (decode error,
missing `proposed_action`, missing `confidence`) lands in the `except`
handler, i.e. returns `fallbackProposal`. -/
def parse_proposal_v2 (loads : List Char → Option PropData)
    (ai_response : List Char) (snapshot : IndicatorSnapshot) : LLMProposal :=
  let json_str := extract_json_str ai_response
  match loads json_str with
  | none => fallbackProposal snapshot
  | some data =>
    if data.proposed_action = none then fallbackProposal snapshot
    else if data.confidence = none then fallbackProposal snapshot
    else
      let proposal : LLMProposal :=
        { symbol := data.symbol.getD snapshot.symbol,
          proposed_action := data.proposed_action.getD "HOLD",
          confidence := data.confidence.getD 0,
          evidence := data.evidence.getD {},
          params := data.params.getD defaultParams,
          risk_level := data.risk_level.getD "medium",
          warnings := data.warnings.getD [],
          counter_evidence := data.counter_evidence.getD [],
          notes := data.notes.getD "" }
      if snapshot.missing_fields ≠ [] ∧ proposal.proposed_action = "BUY" then
        { proposal with
          proposed_action := "HOLD",
          warnings := proposal.warnings ++ ["Critical indicators missing"],
          confidence := max 0 (proposal.confidence - 20) }
      else proposal


/-! ## Concrete sample values used by witnesses and counterexamples -/

def defaultConfig : FirewallConfig := {}

def sampleProposal : LLMProposal :=
  { symbol := "AAPL", proposed_action := "HOLD", confidence := 50,
    evidence := {}, params := {}, risk_level := "medium",
    warnings := [], counter_evidence := [], notes := "" }

def sellProposal : LLMProposal :=
  { sampleProposal with proposed_action := "SELL" }

def outOfBandProposal : LLMProposal :=
  { sampleProposal with
    params :=
      { position_size_pct := some 20, stop_loss_pct := some 1,
        take_profit_pct := some 100 } }

def sampleSnapshot : IndicatorSnapshot :=
  { symbol := "AAPL", timestamp_utc := 0, timestamp_et := 0, price := 100,
    open_price := 100, high := 100, low := 100, close := 100,
    volume := 1000 }

def hardStopSnapshot : IndicatorSnapshot :=
  { sampleSnapshot with
    has_position := true, position_pnl_pct := -6,
    missing_fields := ["ma5"] }

def invalidPriceSnapshot : IndicatorSnapshot :=
  { sampleSnapshot with
    price := 0, has_valid_price := false }

def invalidPriceHardStopSnapshot : IndicatorSnapshot :=
  { sampleSnapshot with
    price := 0, has_valid_price := false,
    has_position := true, position_pnl_pct := -10 }

def sellCheckConfig : FirewallConfig :=
  { max_spread := 1 }

def wideSpreadSnapshot : IndicatorSnapshot :=
  { sampleSnapshot with
    spread := some 2 }

def recentTradeSnapshot : IndicatorSnapshot :=
  { sampleSnapshot with
    last_trade_time_by_symbol := [("AAPL", 0)] }

def macdOnlyMarketData : MarketData :=
  { macd := some 2, macd_signal := some 1, macd_hist := some 1 }

def respFencedTagged : String :=
  "Analysis done.\n```json\n\x7b\"proposed_action\": \"BUY\", \"confidence\": 80\x7d\n```\nEnd."

def respFenced : String :=
  "Analysis done.\n```\n\x7b\"proposed_action\": \"SELL\"\x7d\n```"

def respBare : String :=
  "Result: \x7b\"proposed_action\": \"HOLD\"\x7d done"

def loadsNone : List Char → Option PropData := fun _ => none


/-- The symbol state that `transition` starts from: the stored one, or a
fresh WAIT state. -/
def soBefore (m : TradeStateMachine) (symbol : String) : SymbolState :=
  match m.states.lookup symbol with
  | some so => so
  | none => { symbol := symbol, state := TradeState.WAIT }


/-! ## Helper lemmas -/


lemma lookup_cons_eq {α : Type} (k : String) (b : α) (es : List (String × α)) :
    List.lookup k ((k, b) :: es) = some b := by
  simp [List.lookup]

lemma lookup_cons_ne {α : Type} (a k : String) (b : α)
    (es : List (String × α)) (h : a ≠ k) :
    List.lookup a ((k, b) :: es) = List.lookup a es := by
  have hb : (a == k) = false := beq_eq_false_iff_ne.mpr h
  simp [List.lookup, hb]

lemma lookup_map_set {α : Type} (d : List (String × α)) (k : String) (v : α)
    (h : (d.lookup k).isSome = true) :
    (d.map (fun p => if p.1 = k then (k, v) else p)).lookup k = some v := by
  induction d with
  | nil => simp [List.lookup] at h
  | cons a t ih =>
    obtain ⟨ka, va⟩ := a
    rw [List.map_cons]
    by_cases hk : ka = k
    · rw [if_pos (show (ka, va).1 = k from hk), hk] at *
      exact lookup_cons_eq k v _
    · rw [if_neg (show ¬ (ka, va).1 = k from hk)]
      rw [lookup_cons_ne k ka va _ (fun he => hk he.symm)]
      rw [lookup_cons_ne k ka va t (fun he => hk he.symm)] at h
      exact ih h

lemma lookup_append_left_none {α : Type} (d e : List (String × α))
    (k : String) (h : d.lookup k = none) :
    (d ++ e).lookup k = e.lookup k := by
  induction d with
  | nil => simp
  | cons a t ih =>
    obtain ⟨ka, va⟩ := a
    by_cases hk : k = ka
    · subst hk
      rw [lookup_cons_eq] at h
      exact absurd h (by simp)
    · rw [List.cons_append, lookup_cons_ne _ _ _ _ hk]
      rw [lookup_cons_ne _ _ _ _ hk] at h
      exact ih h

lemma lookup_dictSet {α : Type} (d : List (String × α)) (k : String) (v : α) :
    (dictSet d k v).lookup k = some v := by
  unfold dictSet
  by_cases h : (d.lookup k).isSome = true
  · rw [if_pos h]
    exact lookup_map_set d k v h
  · rw [if_neg h]
    have hn : d.lookup k = none := by
      cases hd : d.lookup k with
      | none => rfl
      | some w => rw [hd] at h; simp at h
    rw [lookup_append_left_none d _ k hn]
    exact lookup_cons_eq k v []

lemma soBefore_state (m : TradeStateMachine) (symbol : String) :
    (soBefore m symbol).state = m.get_state symbol := by
  unfold soBefore TradeStateMachine.get_state
  cases m.states.lookup symbol <;> rfl

lemma transition_lookup (m : TradeStateMachine) (symbol action : String)
    (hp : Bool) (now : ℚ) :
    (m.transition symbol action hp now).2.states.lookup symbol =
      some (stepSymbolState m.cooldown_minutes now action hp
        (soBefore m symbol)) := by
  unfold TradeStateMachine.transition soBefore
  cases h : m.states.lookup symbol with
  | some so =>
    simp only [h, Option.isSome_some, if_true]
    exact lookup_dictSet _ _ _
  | none =>
    have hfresh : (m.states ++ [(symbol,
        ({ symbol := symbol, state := TradeState.WAIT } : SymbolState))]).lookup
          symbol =
        some { symbol := symbol, state := TradeState.WAIT } := by
      rw [lookup_append_left_none _ _ _ h]
      exact lookup_cons_eq _ _ []
    simp only [h, Option.isSome_none, Bool.false_eq_true, if_false, hfresh]
    exact lookup_dictSet _ _ _

lemma transition_get_state (m : TradeStateMachine) (symbol action : String)
    (hp : Bool) (now : ℚ) :
    (m.transition symbol action hp now).2.get_state symbol =
      (stepSymbolState m.cooldown_minutes now action hp
        (soBefore m symbol)).state := by
  unfold TradeStateMachine.get_state
  rw [transition_lookup]

lemma step_close_only_buy (cm now : ℚ) (action : String) (hp : Bool)
    (so : SymbolState)
    (h : (stepSymbolState cm now action hp so).state = TradeState.ENTERED ∨
      (stepSymbolState cm now action hp so).state = TradeState.MANAGING) :
    (so.state = TradeState.ENTERED ∨ so.state = TradeState.MANAGING) ∨
      (action = "BUY" ∧ hp = true ∧
       (so.state = TradeState.WAIT ∨ so.state = TradeState.CANDIDATE) ∧
       (stepSymbolState cm now action hp so).state = TradeState.ENTERED) := by
  unfold stepSymbolState at h ⊢
  cases hx : so.exited_at <;> rw [hx] at h <;> split_ifs at h <;>
    (try simp only [] at h) <;> (try split_ifs at h) <;> simp_all

lemma step_buy_enters (cm now : ℚ) (so : SymbolState)
    (h1 : so.state = TradeState.WAIT ∨ so.state = TradeState.CANDIDATE) :
    (stepSymbolState cm now "BUY" true so).state = TradeState.ENTERED := by
  unfold stepSymbolState
  rw [if_pos rfl, if_pos h1, if_pos rfl]

lemma step_sell_no_close (cm now : ℚ) (hp : Bool) (so : SymbolState) :
    ¬ ((stepSymbolState cm now "SELL" hp so).state = TradeState.ENTERED ∨
      (stepSymbolState cm now "SELL" hp so).state = TradeState.MANAGING) := by
  unfold stepSymbolState
  cases hx : so.exited_at <;> split_ifs <;> simp_all

lemma checkCircuitBreaker_params (fw : FirewallConfig) (p : LLMProposal)
    (s : IndicatorSnapshot) (st : CheckState) :
    (checkCircuitBreaker fw p s st).final_params = st.final_params := by
  unfold checkCircuitBreaker
  split_ifs <;> rfl

lemma checkCooldown_params (fw : FirewallConfig) (now : ℚ) (p : LLMProposal)
    (s : IndicatorSnapshot) (st : CheckState) :
    (checkCooldown fw now p s st).final_params = st.final_params := by
  unfold checkCooldown
  by_cases h : s.last_trade_time_by_symbol ≠ []
  · rw [if_pos h]
    cases s.last_trade_time_by_symbol.lookup s.symbol
    · rfl
    · dsimp only
      split_ifs <;> rfl
  · rw [if_neg h]

lemma clamp_in_band (a b x : ℚ) (h : a ≤ b) :
    a ≤ max a (min b x) ∧ max a (min b x) ≤ b :=
  ⟨le_max_left _ _, max_le h (min_le_left _ _)⟩

lemma clamped_value_in_band (a b x : ℚ) (h : a ≤ b) :
    a ≤ (if x < a ∨ x > b then max a (min b x) else x) ∧
    (if x < a ∨ x > b then max a (min b x) else x) ≤ b := by
  split_ifs with hc
  · exact clamp_in_band a b x h
  · push_neg at hc
    exact ⟨hc.1, hc.2⟩

lemma checkClamps_stop_value (fw : FirewallConfig) (st : CheckState) :
    (checkClamps fw st).final_params.stop_loss_pct.getD 5 =
      (if st.final_params.stop_loss_pct.getD 5 < fw.stop_loss_min ∨
          st.final_params.stop_loss_pct.getD 5 > fw.stop_loss_max then
        max fw.stop_loss_min (min fw.stop_loss_max
          (st.final_params.stop_loss_pct.getD 5))
      else st.final_params.stop_loss_pct.getD 5) := by
  simp only [checkClamps]
  split_ifs <;> rfl

lemma checkClamps_tp_value (fw : FirewallConfig) (st : CheckState) :
    (checkClamps fw st).final_params.take_profit_pct.getD 10 =
      (if st.final_params.take_profit_pct.getD 10 < fw.take_profit_min ∨
          st.final_params.take_profit_pct.getD 10 > fw.take_profit_max then
        max fw.take_profit_min (min fw.take_profit_max
          (st.final_params.take_profit_pct.getD 10))
      else st.final_params.take_profit_pct.getD 10) := by
  simp only [checkClamps]
  split_ifs <;> rfl

lemma checkClamps_bounds (fw : FirewallConfig) (st : CheckState)
    (h1 : fw.stop_loss_min ≤ fw.stop_loss_max)
    (h2 : fw.take_profit_min ≤ fw.take_profit_max) :
    fw.stop_loss_min ≤ (checkClamps fw st).final_params.stop_loss_pct.getD 5 ∧
    (checkClamps fw st).final_params.stop_loss_pct.getD 5 ≤ fw.stop_loss_max ∧
    fw.take_profit_min ≤
      (checkClamps fw st).final_params.take_profit_pct.getD 10 ∧
    (checkClamps fw st).final_params.take_profit_pct.getD 10 ≤
      fw.take_profit_max := by
  rw [checkClamps_stop_value, checkClamps_tp_value]
  exact ⟨(clamped_value_in_band _ _ _ h1).1, (clamped_value_in_band _ _ _ h1).2,
    (clamped_value_in_band _ _ _ h2).1, (clamped_value_in_band _ _ _ h2).2⟩

lemma finalDecision_params (p : LLMProposal) (st : CheckState) :
    (finalDecision p st).final_params = st.final_params := rfl

lemma finalDecision_nc (p : LLMProposal) (st : CheckState) :
    (finalDecision p st).normalized_confidence = st.normalized_confidence :=
  rfl

lemma checkSpread_nc (fw : FirewallConfig) (p : LLMProposal)
    (s : IndicatorSnapshot) (st : CheckState) :
    (checkSpread fw p s st).normalized_confidence =
      st.normalized_confidence := by
  unfold checkSpread
  cases s.spread
  · rfl
  · dsimp only
    split_ifs <;> rfl

lemma checkLiquidity_nc (fw : FirewallConfig) (p : LLMProposal)
    (s : IndicatorSnapshot) (st : CheckState) :
    (checkLiquidity fw p s st).normalized_confidence =
      st.normalized_confidence := by
  unfold checkLiquidity
  cases s.liquidity_score
  · rfl
  · dsimp only
    split_ifs <;> rfl

lemma checkPositionLimit_nc (fw : FirewallConfig) (p : LLMProposal)
    (s : IndicatorSnapshot) (st : CheckState) :
    (checkPositionLimit fw p s st).normalized_confidence =
      st.normalized_confidence := by
  unfold checkPositionLimit
  split_ifs <;> first
    | rfl
    | (dsimp only; split_ifs <;> rfl)

lemma checkClamps_nc (fw : FirewallConfig) (st : CheckState) :
    (checkClamps fw st).normalized_confidence =
      st.normalized_confidence := by
  simp only [checkClamps]
  split_ifs <;> rfl

lemma checkCircuitBreaker_nc (fw : FirewallConfig) (p : LLMProposal)
    (s : IndicatorSnapshot) (st : CheckState) :
    (checkCircuitBreaker fw p s st).normalized_confidence =
      st.normalized_confidence := by
  unfold checkCircuitBreaker
  split_ifs <;> rfl

lemma checkCooldown_nc (fw : FirewallConfig) (now : ℚ) (p : LLMProposal)
    (s : IndicatorSnapshot) (st : CheckState) :
    (checkCooldown fw now p s st).normalized_confidence =
      st.normalized_confidence := by
  unfold checkCooldown
  by_cases h : s.last_trade_time_by_symbol ≠ []
  · rw [if_pos h]
    cases s.last_trade_time_by_symbol.lookup s.symbol
    · rfl
    · dsimp only
      split_ifs <;> rfl
  · rw [if_neg h]

lemma checkMissingFields_nc (p : LLMProposal) (s : IndicatorSnapshot)
    (st : CheckState) (h : 0 ≤ st.normalized_confidence) :
    0 ≤ (checkMissingFields p s st).normalized_confidence ∧
    (checkMissingFields p s st).normalized_confidence ≤
      st.normalized_confidence := by
  unfold checkMissingFields
  split_ifs
  · constructor <;> dsimp only <;> omega
  · exact ⟨h, le_refl _⟩

lemma checkSession_nc (fw : FirewallConfig) (p : LLMProposal)
    (s : IndicatorSnapshot) (st : CheckState)
    (h : 0 ≤ st.normalized_confidence) :
    0 ≤ (checkSession fw p s st).normalized_confidence ∧
    (checkSession fw p s st).normalized_confidence ≤
      st.normalized_confidence := by
  simp only [checkSession]
  split_ifs <;> first
    | exact ⟨h, le_refl _⟩
    | (constructor <;> dsimp only <;> omega)

lemma checkBuySignals_nc (fw : FirewallConfig) (p : LLMProposal)
    (s : IndicatorSnapshot) (st : CheckState)
    (h : 0 ≤ st.normalized_confidence) :
    0 ≤ (checkBuySignals fw p s st).normalized_confidence ∧
    (checkBuySignals fw p s st).normalized_confidence ≤
      st.normalized_confidence := by
  simp only [checkBuySignals]
  split_ifs <;> first
    | exact ⟨h, le_refl _⟩
    | (constructor <;> dsimp only <;> omega)

lemma checkMain_nc (fw : FirewallConfig) (now : ℚ) (p : LLMProposal)
    (s : IndicatorSnapshot) (st : CheckState)
    (h : 0 ≤ st.normalized_confidence) :
    0 ≤ (checkMain fw now p s st).normalized_confidence ∧
    (checkMain fw now p s st).normalized_confidence ≤
      st.normalized_confidence := by
  unfold checkMain
  rw [checkCooldown_nc, checkCircuitBreaker_nc, checkClamps_nc,
    checkPositionLimit_nc]
  have hs := checkSession_nc fw p s st h
  have hb := checkBuySignals_nc fw p s
    (checkLiquidity fw p s (checkSpread fw p s (checkSession fw p s st)))
    (by rw [checkLiquidity_nc, checkSpread_nc]; exact hs.1)
  rw [checkLiquidity_nc, checkSpread_nc] at hb
  exact ⟨hb.1, le_trans hb.2 hs.2⟩



/-! ## C1 -/

/-- C1, counterexample: the hard stop does not fire regardless of price
validity. On a snapshot with an invalid price, an open position and P/L of
-10% (below the -5% hard stop), `check` returns denied/HOLD from the
price-integrity early return instead of the claimed allowed/SELL. -/
theorem hard_stop_not_unconditional :
    (check defaultConfig 0 sampleProposal
      invalidPriceHardStopSnapshot).allowed = false ∧
    (check defaultConfig 0 sampleProposal
      invalidPriceHardStopSnapshot).final_action = "HOLD" := by
  constructor <;> rfl

/-- C1, amended: hard stop dominance holds for every valid-price snapshot.
For every config, clock, proposal and snapshot with a valid price, an open
position and P/L at or below the hard-stop threshold, `check` returns
allowed, SELL, full-position liquidation parameters, confidence 100 and
reason code HARD_STOP_LOSS, regardless of every other proposal or snapshot
field (including missing indicator fields). -/
theorem hard_stop_dominance (fw : FirewallConfig) (now : ℚ)
    (proposal : LLMProposal) (snapshot : IndicatorSnapshot)
    (hv : snapshot.has_valid_price = true)
    (hp : snapshot.has_position = true)
    (hl : snapshot.position_pnl_pct ≤ fw.hard_stop_loss_pct) :
    check fw now proposal snapshot =
      { allowed := true, final_action := "SELL",
        final_params :=
          { position_size_pct := some 100,
            stop_loss_pct := some fw.hard_stop_loss_pct,
            take_profit_pct := some 0 },
        reject_reasons := [],
        reason_codes := [ReasonCode.HARD_STOP_LOSS],
        normalized_confidence := 100, original_proposal := proposal,
        modifications := some ["Hard stop loss triggered, forced sell"] } := by
  simp only [check]
  rw [if_neg (by simp [hv]), if_pos ⟨hp, hl⟩]

/-- C1 witness: the amended theorem applied at a concrete snapshot with an
open position at -6% P/L and a missing indicator field. -/
theorem hard_stop_dominance_witness :
    check defaultConfig 0 sampleProposal hardStopSnapshot =
      { allowed := true, final_action := "SELL",
        final_params :=
          { position_size_pct := some 100, stop_loss_pct := some (-5),
            take_profit_pct := some 0 },
        reject_reasons := [],
        reason_codes := [ReasonCode.HARD_STOP_LOSS],
        normalized_confidence := 100, original_proposal := sampleProposal,
        modifications := some ["Hard stop loss triggered, forced sell"] } :=
  hard_stop_dominance defaultConfig 0 sampleProposal hardStopSnapshot
    rfl rfl (by norm_num [hardStopSnapshot, sampleSnapshot, defaultConfig])

/-! ## C2 -/

/-- C2, code-bug evaluation: a SELL proposal is blocked both by the spread
check (spread 2% above a 1% ceiling) and by the minimum-trade-interval
check (1 minute since the last trade, 5-minute minimum): `check` returns
allowed=false and final_action=HOLD with only that check's reason code,
because the final gate denies any verdict with a nonempty reject list even
though the per-check code only forces HOLD for BUY (and its comment says
sell is not restricted). -/
theorem sell_blocked_contrary_to_spec :
    (check sellCheckConfig 0 sellProposal wideSpreadSnapshot).allowed =
      false ∧
    (check sellCheckConfig 0 sellProposal wideSpreadSnapshot).final_action =
      "HOLD" ∧
    (check sellCheckConfig 0 sellProposal wideSpreadSnapshot).reason_codes =
      [ReasonCode.HIGH_SPREAD] ∧
    (check defaultConfig 1 sellProposal recentTradeSnapshot).allowed = false ∧
    (check defaultConfig 1 sellProposal recentTradeSnapshot).final_action =
      "HOLD" ∧
    (check defaultConfig 1 sellProposal recentTradeSnapshot).reason_codes =
      [ReasonCode.MIN_TRADE_INTERVAL] := by
  refine ⟨by decide, by decide, by decide, ?_⟩
  have hsub : (1 : ℚ) - 0 = 1 := by norm_num
  have hcd : checkCooldown defaultConfig 1 sellProposal recentTradeSnapshot =
      fun st =>
        { st with
          reject_reasons :=
            st.reject_reasons ++ ["Insufficient trade interval"],
          reason_codes :=
            st.reason_codes ++ [ReasonCode.MIN_TRADE_INTERVAL] } := by
    funext st
    simp only [checkCooldown, recentTradeSnapshot, sampleSnapshot,
      sellProposal, sampleProposal, defaultConfig, List.lookup, hsub,
      eq_false (show ¬ ("SELL" = "BUY") by decide)]
    norm_num
  simp only [check, checkMissingFields, checkMain, hcd]
  decide

/-! ## C3 -/

/-- C3: invalid price forces HOLD. For every config, clock and proposal,
a snapshot with `has_valid_price = false` makes `check` return immediately
with allowed=false, HOLD, empty params, confidence 0 and reason code
MISSING_DATA; the returned record is exactly the early-return literal (its
`modifications` is still the dataclass default `None`), so no further
checks run. -/
theorem invalid_price_forces_hold (fw : FirewallConfig) (now : ℚ)
    (proposal : LLMProposal) (snapshot : IndicatorSnapshot)
    (h : snapshot.has_valid_price = false) :
    check fw now proposal snapshot =
      { allowed := false, final_action := "HOLD", final_params := {},
        reject_reasons := ["Invalid price data"],
        reason_codes := [ReasonCode.MISSING_DATA],
        normalized_confidence := 0, original_proposal := proposal,
        modifications := none } := by
  simp only [check]
  rw [if_pos h]
  rfl

/-- C3 witness: the theorem applied at a concrete zero-price snapshot. -/
theorem invalid_price_forces_hold_witness :
    check defaultConfig 0 sampleProposal invalidPriceSnapshot =
      { allowed := false, final_action := "HOLD", final_params := {},
        reject_reasons := ["Invalid price data"],
        reason_codes := [ReasonCode.MISSING_DATA],
        normalized_confidence := 0, original_proposal := sampleProposal,
        modifications := none } :=
  invalid_price_forces_hold defaultConfig 0 sampleProposal
    invalidPriceSnapshot rfl

/-! ## C4 -/

/-- C4, code-bug evaluation: the session boundaries are shifted. 10:00 ET
(600 minutes, inside the claimed 9:30-16:00 regular session) maps to
premarket; 4:30 ET (270 minutes, the claimed pre-market start) maps to
closed; 15:45 (945) is the code's regular session; 16:40 (1000) is
after-hours as claimed. -/
theorem session_boundaries_shifted :
    sessionOfMinutes 600 = "premarket" ∧
    sessionOfMinutes 270 = "closed" ∧
    sessionOfMinutes 945 = "regular" ∧
    sessionOfMinutes 1000 = "afterhours" :=
  ⟨rfl, rfl, rfl, rfl⟩

/-! ## C5 -/

/-- C5, counterexample: on a hard-stop snapshot the verdict's parameters
are the liquidation parameters, with stop-loss -5% below the configured
stop-loss band minimum 3% and take-profit 0% below the take-profit band
minimum 5%. -/
theorem clamp_bounds_violated_by_hard_stop :
    (check defaultConfig 0 sampleProposal
      hardStopSnapshot).final_params.stop_loss_pct.getD 5 <
      defaultConfig.stop_loss_min ∧
    (check defaultConfig 0 sampleProposal
      hardStopSnapshot).final_params.take_profit_pct.getD 10 <
      defaultConfig.take_profit_min := by
  constructor <;> decide

/-- C5, amended: for every proposal and every valid-price snapshot that
does not trigger the hard stop, and well-formed configured bands
(min ≤ max), the verdict's effective stop-loss percentage (with the
source's default 5 when absent) lies in [stop_loss_min, stop_loss_max] and
its effective take-profit percentage (default 10) lies in
[take_profit_min, take_profit_max], even when the proposal's inputs are
far outside those bands. -/
theorem clamp_bounds (fw : FirewallConfig) (now : ℚ)
    (proposal : LLMProposal) (snapshot : IndicatorSnapshot)
    (h1 : fw.stop_loss_min ≤ fw.stop_loss_max)
    (h2 : fw.take_profit_min ≤ fw.take_profit_max)
    (hv : snapshot.has_valid_price = true)
    (hns : ¬ (snapshot.has_position = true ∧
      snapshot.position_pnl_pct ≤ fw.hard_stop_loss_pct)) :
    fw.stop_loss_min ≤
      (check fw now proposal snapshot).final_params.stop_loss_pct.getD 5 ∧
    (check fw now proposal snapshot).final_params.stop_loss_pct.getD 5 ≤
      fw.stop_loss_max ∧
    fw.take_profit_min ≤
      (check fw now proposal snapshot).final_params.take_profit_pct.getD 10 ∧
    (check fw now proposal snapshot).final_params.take_profit_pct.getD 10 ≤
      fw.take_profit_max := by
  simp only [check]
  rw [if_neg (by simp [hv]), if_neg hns, finalDecision_params]
  unfold checkMain
  rw [checkCooldown_params, checkCircuitBreaker_params]
  exact checkClamps_bounds fw _ h1 h2

/-- C5 witness: the amended theorem applied at a proposal requesting
stop-loss 1% and take-profit 100%, far outside the default [3,5] and
[5,15] bands. -/
theorem clamp_bounds_witness :
    defaultConfig.stop_loss_min ≤
      (check defaultConfig 0 outOfBandProposal
        sampleSnapshot).final_params.stop_loss_pct.getD 5 ∧
    (check defaultConfig 0 outOfBandProposal
        sampleSnapshot).final_params.stop_loss_pct.getD 5 ≤
      defaultConfig.stop_loss_max ∧
    defaultConfig.take_profit_min ≤
      (check defaultConfig 0 outOfBandProposal
        sampleSnapshot).final_params.take_profit_pct.getD 10 ∧
    (check defaultConfig 0 outOfBandProposal
        sampleSnapshot).final_params.take_profit_pct.getD 10 ≤
      defaultConfig.take_profit_max :=
  clamp_bounds defaultConfig 0 outOfBandProposal sampleSnapshot
    (by decide) (by decide) rfl (by decide)

/-! ## C6 -/

/-- C6: state-machine close legality. (1) Immediately after construction
`can_close_position` is false for every symbol; (2) if a transition makes
`can_close_position` true where it was not already, that transition was a
BUY with a position present from WAIT or CANDIDATE and the new state is
ENTERED; (3) a BUY with a position present from WAIT or CANDIDATE does
make it true; (4) immediately after a SELL transition it is false. -/
theorem can_close_legality :
    (∀ (cm : ℚ) (sym : String),
      (TradeStateMachine.init cm).can_close_position sym = false) ∧
    (∀ (m : TradeStateMachine) (sym action : String) (hp : Bool) (now : ℚ),
      (m.transition sym action hp now).2.can_close_position sym = true →
      m.can_close_position sym = true ∨
        (action = "BUY" ∧ hp = true ∧
         (m.get_state sym = TradeState.WAIT ∨
          m.get_state sym = TradeState.CANDIDATE) ∧
         (m.transition sym action hp now).2.get_state sym =
           TradeState.ENTERED)) ∧
    (∀ (m : TradeStateMachine) (sym : String) (now : ℚ),
      (m.get_state sym = TradeState.WAIT ∨
        m.get_state sym = TradeState.CANDIDATE) →
      (m.transition sym "BUY" true now).2.can_close_position sym = true) ∧
    (∀ (m : TradeStateMachine) (sym : String) (hp : Bool) (now : ℚ),
      (m.transition sym "SELL" hp now).2.can_close_position sym = false) := by
  refine ⟨?_, ?_, ?_, ?_⟩
  · intro cm sym
    rfl
  · intro m sym action hp now h
    unfold TradeStateMachine.can_close_position at h ⊢
    rw [transition_get_state] at h
    have h' := of_decide_eq_true h
    rcases step_close_only_buy m.cooldown_minutes now action hp
        (soBefore m sym) h' with hold | hnew
    · rw [soBefore_state] at hold
      exact Or.inl (decide_eq_true hold)
    · rw [soBefore_state] at hnew
      refine Or.inr ⟨hnew.1, hnew.2.1, hnew.2.2.1, ?_⟩
      rw [transition_get_state]
      exact hnew.2.2.2
  · intro m sym now h1
    unfold TradeStateMachine.can_close_position
    rw [transition_get_state, step_buy_enters _ _ _
      (by rw [soBefore_state]; exact h1)]
    rfl
  · intro m sym hp now
    unfold TradeStateMachine.can_close_position
    rw [transition_get_state]
    exact decide_eq_false (step_sell_no_close m.cooldown_minutes now hp
      (soBefore m sym))

/-- C6 witness: the four parts applied on concrete machines: a fresh
machine, a BUY from WAIT with a position, and a SELL after that BUY. -/
theorem can_close_legality_witness :
    (TradeStateMachine.init 30).can_close_position "AAPL" = false ∧
    ((TradeStateMachine.init 30).transition "AAPL" "BUY" true
      0).2.can_close_position "AAPL" = true ∧
    ((((TradeStateMachine.init 30).transition "AAPL" "BUY" true
      0).2).transition "AAPL" "SELL" false 5).2.can_close_position "AAPL" =
      false ∧
    ((TradeStateMachine.init 30).can_close_position "AAPL" = true ∨
      ("BUY" = "BUY" ∧ true = true ∧
       ((TradeStateMachine.init 30).get_state "AAPL" = TradeState.WAIT ∨
        (TradeStateMachine.init 30).get_state "AAPL" =
          TradeState.CANDIDATE) ∧
       ((TradeStateMachine.init 30).transition "AAPL" "BUY" true
         0).2.get_state "AAPL" = TradeState.ENTERED)) :=
  ⟨can_close_legality.1 30 "AAPL",
   can_close_legality.2.2.1 (TradeStateMachine.init 30) "AAPL" 0
     (Or.inl rfl),
   can_close_legality.2.2.2 _ "AAPL" false 5,
   can_close_legality.2.1 (TradeStateMachine.init 30) "AAPL" "BUY" true 0
     (by decide)⟩

/-! ## C7 -/

/-- C7: for every snapshot built by `from_market_data`, the momentum
predicate `macd_ok` is true only if the oscillator value and signal line
are both present, the value is positive, the value exceeds the signal
line, and the derived cross state is golden; and `buy_rule_count` equals
the sum of the six boolean predicates (trend, volume, momentum,
range-health, breakout, channel-health) stored in the same snapshot,
computed at construction. -/
theorem macd_ok_only_if_and_rule_count (symbol : String) (md : MarketData)
    (ai : AccountInfo) (positions : List PositionRec)
    (rs : Option RiskState) (nu ne : ℚ) (tm : Int) :
    ((from_market_data symbol md ai positions rs nu ne tm).macd_ok = true →
      ∃ m sig, md.macd = some m ∧ md.macd_signal = some sig ∧
        0 < m ∧ sig < m ∧
        (from_market_data symbol md ai positions rs nu ne tm).macd_cross =
          some "golden") ∧
    (from_market_data symbol md ai positions rs nu ne tm).buy_rule_count =
      [(from_market_data symbol md ai positions rs nu ne tm).trend_ok,
       (from_market_data symbol md ai positions rs nu ne tm).volume_ok,
       (from_market_data symbol md ai positions rs nu ne tm).macd_ok,
       (from_market_data symbol md ai positions rs nu ne tm).rsi_ok,
       (from_market_data symbol md ai positions rs nu ne tm).breakout_ok,
       (from_market_data symbol md ai positions rs nu ne tm).bb_ok].foldl
        (fun n b => n + if b then 1 else 0) 0 := by
  constructor
  · intro h
    cases hm : md.macd with
    | none => simp [from_market_data, hm] at h
    | some m =>
      cases hs : md.macd_signal with
      | none => simp [from_market_data, hm, hs] at h
      | some sig =>
        simp only [from_market_data, hm, hs] at h ⊢
        rw [decide_eq_true_iff] at h
        exact ⟨m, sig, rfl, rfl, h.1, h.2.1, by rw [h.2.2]⟩
  · rfl

/-- C7 witness: market data with oscillator value 2, signal 1, histogram 1
makes `macd_ok` true, and the only-if direction yields the four conditions
and the golden cross state. -/
theorem macd_ok_only_if_and_rule_count_witness :
    (from_market_data "AAPL" macdOnlyMarketData {} [] none 0 0
      945).macd_ok = true ∧
    (∃ m sig, macdOnlyMarketData.macd = some m ∧
      macdOnlyMarketData.macd_signal = some sig ∧ 0 < m ∧ sig < m ∧
      (from_market_data "AAPL" macdOnlyMarketData {} [] none 0 0
        945).macd_cross = some "golden") :=
  ⟨by decide,
   (macd_ok_only_if_and_rule_count "AAPL" macdOnlyMarketData {} [] none 0 0
     945).1 (by decide)⟩

/-! ## C8 -/

/-- C8: firewall determinism and purity. `checkWithEnv` (the mutation
model of `check`: the source copies `proposal.params` and writes only to
locals and the copy) leaves the proposal, the snapshot and the risk
context exactly as passed, and re-running it on the state left behind by
the first call yields the identical verdict in every field. -/
theorem check_idempotent_and_pure (fw : FirewallConfig) (now : ℚ)
    (proposal : LLMProposal) (snapshot : IndicatorSnapshot)
    (riskState : Option (List (String × ℚ))) :
    (checkWithEnv fw now proposal snapshot riskState).2 =
      (proposal, snapshot, riskState) ∧
    (checkWithEnv fw now
        (checkWithEnv fw now proposal snapshot riskState).2.1
        (checkWithEnv fw now proposal snapshot riskState).2.2.1
        (checkWithEnv fw now proposal snapshot riskState).2.2.2).1 =
      (checkWithEnv fw now proposal snapshot riskState).1 :=
  ⟨rfl, rfl⟩

/-! ## C9 -/

/-- C9: proposal parser fallback and the three presentation variants.
For every decoder outcome and response: a decode failure, a missing
`proposed_action`, or a missing `confidence` makes `parse_proposal_v2`
return the conservative fallback proposal (HOLD, confidence 0, diagnostic
warnings and notes) instead of raising; and the JSON extraction returns
the enclosed object for a fenced block with a language tag, a fenced
block without one, and a bare-brace response located by first/last-brace
scan. -/
theorem parser_variants_and_fallback :
    (∀ (loads : List Char → Option PropData) (resp : List Char)
        (snap : IndicatorSnapshot),
      loads (extract_json_str resp) = none →
      parse_proposal_v2 loads resp snap = fallbackProposal snap) ∧
    (∀ (loads : List Char → Option PropData) (resp : List Char)
        (snap : IndicatorSnapshot) (d : PropData),
      loads (extract_json_str resp) = some d →
      (d.proposed_action = none ∨ d.confidence = none) →
      parse_proposal_v2 loads resp snap = fallbackProposal snap) ∧
    extract_json_str respFencedTagged.toList =
      "\x7b\"proposed_action\": \"BUY\", \"confidence\": 80\x7d".toList ∧
    extract_json_str respFenced.toList =
      "\x7b\"proposed_action\": \"SELL\"\x7d".toList ∧
    extract_json_str respBare.toList =
      "\x7b\"proposed_action\": \"HOLD\"\x7d".toList := by
  refine ⟨?_, ?_, by decide, by decide, by decide⟩
  · intro loads resp snap h
    simp only [parse_proposal_v2]
    rw [h]
  · intro loads resp snap d h hmiss
    simp only [parse_proposal_v2]
    rw [h]
    dsimp only
    by_cases hpa : d.proposed_action = none
    · rw [if_pos hpa]
    · rcases hmiss with hm | hm
      · exact absurd hm hpa
      · rw [if_neg hpa, if_pos hm]

/-- C9 witness: the fallback branch applied with a decoder that always
fails on a concrete response. -/
theorem parser_variants_and_fallback_witness :
    parse_proposal_v2 loadsNone respBare.toList sampleSnapshot =
      fallbackProposal sampleSnapshot :=
  parser_variants_and_fallback.1 loadsNone respBare.toList sampleSnapshot
    rfl

/-! ## C10 -/

/-- C10: for every proposal with confidence in [0,100] and every snapshot,
the verdict's normalized confidence is in [0,100]; and on every path other
than the hard stop (which sets 100) it never exceeds the proposal's
confidence, since every penalty is floored at 0 and the invalid-price path
sets it to 0. -/
theorem confidence_in_range (fw : FirewallConfig) (now : ℚ)
    (proposal : LLMProposal) (snapshot : IndicatorSnapshot)
    (h0 : 0 ≤ proposal.confidence) (h100 : proposal.confidence ≤ 100) :
    0 ≤ (check fw now proposal snapshot).normalized_confidence ∧
    (check fw now proposal snapshot).normalized_confidence ≤ 100 ∧
    (¬ (snapshot.has_valid_price = true ∧ snapshot.has_position = true ∧
        snapshot.position_pnl_pct ≤ fw.hard_stop_loss_pct) →
      (check fw now proposal snapshot).normalized_confidence ≤
        proposal.confidence) := by
  by_cases hv : snapshot.has_valid_price = false
  · simp only [check]
    rw [if_pos hv]
    exact ⟨le_refl _, by norm_num, fun _ => h0⟩
  · have hv' : snapshot.has_valid_price = true := by
      revert hv
      cases snapshot.has_valid_price <;> simp
    by_cases hhs : snapshot.has_position = true ∧
        snapshot.position_pnl_pct ≤ fw.hard_stop_loss_pct
    · simp only [check]
      rw [if_neg hv, if_pos hhs]
      exact ⟨by norm_num, le_refl _,
        fun hcon => absurd ⟨hv', hhs.1, hhs.2⟩ hcon⟩
    · simp only [check]
      rw [if_neg hv, if_neg hhs, finalDecision_nc]
      have hm := checkMissingFields_nc proposal snapshot
        { reject_reasons := [], reason_codes := [], modifications := [],
          final_action := proposal.proposed_action,
          final_params := proposal.params,
          normalized_confidence := proposal.confidence } h0
      have hmain := checkMain_nc fw now proposal snapshot _ hm.1
      exact ⟨hmain.1, le_trans hmain.2 (le_trans hm.2 h100),
        fun _ => le_trans hmain.2 hm.2⟩

/-- C10 witness: the theorem applied at a confidence-50 proposal and a
plain valid snapshot. -/
theorem confidence_in_range_witness :
    0 ≤ (check defaultConfig 0 sampleProposal
      sampleSnapshot).normalized_confidence ∧
    (check defaultConfig 0 sampleProposal
      sampleSnapshot).normalized_confidence ≤ 100 ∧
    (¬ (sampleSnapshot.has_valid_price = true ∧
        sampleSnapshot.has_position = true ∧
        sampleSnapshot.position_pnl_pct ≤
          defaultConfig.hard_stop_loss_pct) →
      (check defaultConfig 0 sampleProposal
        sampleSnapshot).normalized_confidence ≤ sampleProposal.confidence) :=
  confidence_in_range defaultConfig 0 sampleProposal sampleSnapshot
    (by decide) (by decide)


end AiQtStock
